import Mathlib

/-!
Verification of the BscRadar pool-analysis engine against its specification.

The definitions below are shallow embeddings of the JavaScript source:
* `src/services/PriceService.js` (price oracle, aggregate pricing),
* `src/services/PoolAnalyzer.js` (enrichment, safety checks, scoring, warnings),
* `src/services/MultiHopRouterService.js` (swap-output estimate),
* `src/utils/Cache.js` (single-flight cache fill).

JavaScript numbers are modelled exactly over `ℚ`; where the special values
`Infinity` / `NaN` matter (division by a zero reserve) we use the `JSNum`
type which carries them explicitly.  BigInt arithmetic is modelled over
`ℕ` / `ℤ`.
-/

/-- Liquidity status of an enriched pool (`enrichPoolData`). -/
inductive PoolStatus
  | ACTIVE
  | WARNING_LIQUIDITY
  | LOW_LIQUIDITY
  | EMPTY
  | RUGGED
  deriving DecidableEq, Repr

/-- Protocol kind of a pool. -/
inductive PoolType
  | V2
  | V3
  deriving DecidableEq, Repr

/-- A JavaScript IEEE-754 value restricted to what the analysed expressions
produce: an exact finite value, the two infinities, or `NaN`.  Finite values
are kept exact in `ℚ`; the claims settled with `JSNum` concern only
finiteness / `NaN` propagation, which rounding does not affect. -/
inductive JSNum
  | fin (q : ℚ)
  | posInf
  | negInf
  | nan
  deriving DecidableEq, Repr

namespace JSNum

/-- JavaScript addition on `JSNum` (`NaN` propagates, `∞ + (−∞) = NaN`). -/
def add : JSNum → JSNum → JSNum
  | nan, _ => nan
  | _, nan => nan
  | fin a, fin b => fin (a + b)
  | posInf, negInf => nan
  | negInf, posInf => nan
  | posInf, _ => posInf
  | _, posInf => posInf
  | negInf, _ => negInf
  | _, negInf => negInf

/-- JavaScript multiplication on `JSNum` (`0 × ∞ = NaN`). -/
def mul : JSNum → JSNum → JSNum
  | nan, _ => nan
  | _, nan => nan
  | fin a, fin b => fin (a * b)
  | posInf, posInf => posInf
  | posInf, negInf => negInf
  | negInf, posInf => negInf
  | negInf, negInf => posInf
  | posInf, fin b => if b = 0 then nan else if 0 < b then posInf else negInf
  | fin a, posInf => if a = 0 then nan else if 0 < a then posInf else negInf
  | negInf, fin b => if b = 0 then nan else if 0 < b then negInf else posInf
  | fin a, negInf => if a = 0 then nan else if 0 < a then negInf else posInf

/-- JavaScript division on `JSNum`: a nonzero finite value divided by zero
gives a signed infinity, `0 / 0 = NaN` (positive zero; the analysed code only
divides non-negative quantities). -/
def div : JSNum → JSNum → JSNum
  | nan, _ => nan
  | _, nan => nan
  | fin a, fin b =>
      if b = 0 then (if a = 0 then nan else if 0 < a then posInf else negInf)
      else fin (a / b)
  | posInf, fin b => if 0 ≤ b then posInf else negInf
  | negInf, fin b => if 0 ≤ b then negInf else posInf
  | fin _, posInf => fin 0
  | fin _, negInf => fin 0
  | posInf, _ => nan
  | negInf, _ => nan

/-- JavaScript comparison `x >= c` against a finite constant: false on `NaN`. -/
def geC (x : JSNum) (c : ℚ) : Bool :=
  match x with
  | fin a => decide (c ≤ a)
  | posInf => true
  | negInf => false
  | nan => false

/-- JavaScript comparison `x <= c` against a finite constant: false on `NaN`. -/
def leC (x : JSNum) (c : ℚ) : Bool :=
  match x with
  | fin a => decide (a ≤ c)
  | posInf => false
  | negInf => true
  | nan => false

/-- JavaScript comparison `x > c` against a finite constant: false on `NaN`. -/
def gtC (x : JSNum) (c : ℚ) : Bool :=
  match x with
  | fin a => decide (c < a)
  | posInf => true
  | negInf => false
  | nan => false

/-- `isFinite` predicate of JavaScript. -/
def isFinite : JSNum → Bool
  | fin _ => true
  | _ => false

end JSNum

/-- `PoolAnalyzer.calculatePoolValue(reserve0, reserve1, token0Info, token1Info)`:
USD value of a V2 pool from its formatted reserves and the known base prices
(`basePrices[addr] || 0`).  Returns `(totalValueUSD, totalValueBNB)`.
The reserve-ratio guards are transcribed exactly as written in the source,
including the guard on `reserve0` (resp. `reserve1`) in front of a division
by `reserve1` (resp. `reserve0`). -/
def calculatePoolValue (reserve0 reserve1 token0Price token1Price bnbPrice : ℚ) :
    JSNum × JSNum :=
  let totalValueUSD : JSNum :=
    if 0 < token0Price ∧ 0 < token1Price then
      JSNum.fin (reserve0 * token0Price + reserve1 * token1Price)
    else if 0 < token0Price then
      let token0Value : JSNum := JSNum.fin (reserve0 * token0Price)
      let derivedToken1Price : JSNum :=
        if 0 < reserve0 then
          JSNum.mul (JSNum.div (JSNum.fin reserve0) (JSNum.fin reserve1)) (JSNum.fin token0Price)
        else JSNum.fin 0
      let token1Value : JSNum := JSNum.mul (JSNum.fin reserve1) derivedToken1Price
      JSNum.add token0Value token1Value
    else if 0 < token1Price then
      let token1Value : JSNum := JSNum.fin (reserve1 * token1Price)
      let derivedToken0Price : JSNum :=
        if 0 < reserve1 then
          JSNum.mul (JSNum.div (JSNum.fin reserve1) (JSNum.fin reserve0)) (JSNum.fin token1Price)
        else JSNum.fin 0
      let token0Value : JSNum := JSNum.mul (JSNum.fin reserve0) derivedToken0Price
      JSNum.add token0Value token1Value
    else JSNum.fin 0
  let totalValueBNB : JSNum :=
    if 0 < bnbPrice then JSNum.div totalValueUSD (JSNum.fin bnbPrice) else JSNum.fin 0
  (totalValueUSD, totalValueBNB)

/-- The V3 rugged-tick test of `enrichPoolData`:
`tick >= MAX_TICK − 100 || tick <= MIN_TICK + 100` with `MAX_TICK = 887272`. -/
def isTickAtBoundary (tick : ℤ) : Bool :=
  decide (887272 - 100 ≤ tick) || decide (tick ≤ -887272 + 100)

/-- An enriched pool as produced by `PoolAnalyzer.enrichPoolData`, restricted
to the fields read by the discovery filter and the warnings generator. -/
structure EnrichedPool where
  typ : PoolType
  /-- V2 raw reserves (`enriched.reserves`), absent on V3 pools. -/
  reserves : Option (ℕ × ℕ)
  /-- `enriched.liquidity.raw` parsed as an integer (the source stores the
  decimal string; `'0'` corresponds to `0`). -/
  liqRaw : ℕ
  status : PoolStatus
  isRugged : Bool
  deriving DecidableEq, Repr

/-- V2 branch of `enrichPoolData`: formats the raw reserves, computes the USD
value via `calculatePoolValue` and derives the liquidity status. -/
def enrichV2 (reserve0 reserve1 : ℕ) (dec0 dec1 : ℕ)
    (token0Price token1Price bnbPrice : ℚ) : EnrichedPool :=
  let reserve0Num : ℚ := (reserve0 : ℚ) / 10 ^ dec0
  let reserve1Num : ℚ := (reserve1 : ℚ) / 10 ^ dec1
  let totalValueUSD :=
    (calculatePoolValue reserve0Num reserve1Num token0Price token1Price bnbPrice).1
  let status :=
    if totalValueUSD.geC 1000 then PoolStatus.ACTIVE
    else if totalValueUSD.geC 100 then PoolStatus.WARNING_LIQUIDITY
    else if totalValueUSD.leC 0 && decide (reserve0Num ≤ 0) && decide (reserve1Num ≤ 0) then
      PoolStatus.EMPTY
    else PoolStatus.LOW_LIQUIDITY
  { typ := PoolType.V2
    reserves := some (reserve0, reserve1)
    liqRaw := reserve0
    status := status
    isRugged := false }

/-- V3 branch of `enrichPoolData`.  The rugged check (`isTickAtBoundary` or
zero liquidity) fires before any pricing; on that path the source hardcodes
`liquidity.raw = '0'` and status `RUGGED` and returns immediately.  On the
live path the USD value computed by `calculateV3PoolValue` is taken as the
parameter `totalValueUSD` (that computation is not needed by any claim). -/
def enrichV3 (tick : ℤ) (liquidity : ℕ) (totalValueUSD : JSNum) : EnrichedPool :=
  if isTickAtBoundary tick || liquidity == 0 then
    { typ := PoolType.V3
      reserves := none
      liqRaw := 0
      status := PoolStatus.RUGGED
      isRugged := true }
  else
    { typ := PoolType.V3
      reserves := none
      liqRaw := liquidity
      status :=
        if totalValueUSD.geC 1000 then PoolStatus.ACTIVE
        else if totalValueUSD.geC 100 then PoolStatus.WARNING_LIQUIDITY
        else if liquidity = 0 then PoolStatus.EMPTY
        else PoolStatus.LOW_LIQUIDITY
      isRugged := false }

/-- The liquidity filter of `discoverAllPools` (lines 281–297): a fetched pool
is kept iff `liquidity.raw !== '0'`, or a V2 reserve is nonzero, or the status
is `ACTIVE`. -/
def hasLiquidity (p : EnrichedPool) : Bool :=
  (p.liqRaw != 0) ||
  (match p.reserves with
   | some (r0, r1) => (r0 != 0) || (r1 != 0)
   | none => false) ||
  (p.status == PoolStatus.ACTIVE)

/-- The pool list handed to formatting and warnings generation: the fetched
pools surviving the `hasLiquidity` filter. -/
def discoverFilter (pools : List EnrichedPool) : List EnrichedPool :=
  pools.filter (fun p => hasLiquidity p)

/-- A formatted pool (`formatPoolsWithPricing`) restricted to the fields read
by the V3-rugged warning: the formatted object copies `liquidity.status` but
does not copy `isRugged`, so the generator's `p.isRugged === true` disjunct is
always false on it. -/
structure FormattedPool where
  typ : PoolType
  status : PoolStatus
  deriving DecidableEq, Repr

/-- Formatting step restricted to the fields above. -/
def formatPool (p : EnrichedPool) : FormattedPool :=
  { typ := p.typ, status := p.status }

/-- Warning item 4b of `generateWarnings`: emits a CRITICAL `V3_RUGGED_POOLS`
item iff some formatted pool is a V3 pool with status `RUGGED` (the
`isRugged === true` disjunct reads an absent property on formatted pools). -/
def v3RuggedWarningItems (formattedPools : List FormattedPool) : List (String × String) :=
  let v3RuggedPools := formattedPools.filter
    (fun p => p.typ == PoolType.V3 && (false || p.status == PoolStatus.RUGGED))
  if v3RuggedPools.length > 0 then [("V3_RUGGED_POOLS", "CRITICAL")] else []

/-- `priceRatio` of a V2 pool as computed by `formatPoolsWithPricing`: zero
unless both raw reserves and both formatted amounts are positive, otherwise
the reserve ratio oriented by `isToken0`. -/
def formatPriceRatioV2 (reserve0 reserve1 : ℕ) (dec0 dec1 : ℕ) (isToken0 : Bool) : ℚ :=
  if 0 < reserve0 ∧ 0 < reserve1 then
    let amount0 : ℚ := (reserve0 : ℚ) / 10 ^ dec0
    let amount1 : ℚ := (reserve1 : ℚ) / 10 ^ dec1
    if 0 < amount0 ∧ 0 < amount1 then
      (if isToken0 then amount1 / amount0 else amount0 / amount1)
    else 0
  else 0

/-- Per-symbol minimum pair-token reserve of the rug-pull check
(`performSafetyChecks`, section 4.5): WBNB 0.001, USD stables 10, CAKE 5,
anything else 10.  The symbol is the uppercased pair-token symbol. -/
def minPairReserve (pairSymbol : String) : ℚ :=
  if pairSymbol = "WBNB" then 1 / 1000
  else if pairSymbol = "USDC" ∨ pairSymbol = "USDT" ∨ pairSymbol = "BUSD" then 10
  else if pairSymbol = "CAKE" then 5
  else 10

/-- The stable-pair symbol list of safety check 6. -/
def stableSymbols : List String := ["USDC", "USDT", "DAI", "USDBC", "USDC.E"]

/-- A pool as read by `analyzePoolForTrade` / `performSafetyChecks`. -/
structure ScorerPool where
  typ : PoolType
  /-- `pool.tick !== undefined` (present on formatted V3 pools). -/
  tickPresent : Bool
  /-- truthiness of `pool.sqrtPriceX96` (a non-empty string is truthy). -/
  sqrtPricePresent : Bool
  /-- `BigInt(pool.liquidity?.raw || '0')`. -/
  liqRaw : ℕ
  /-- `pool.price?.inUSD` (0 when absent). -/
  priceInUSD : ℚ
  isToken0 : Bool
  /-- parsed `pool.liquidity.token0` amount. -/
  liqToken0 : ℚ
  /-- parsed `pool.liquidity.token1` amount. -/
  liqToken1 : ℚ
  /-- `pool.pairToken?.symbol?.toUpperCase()`. -/
  pairSymbol : String
  status : PoolStatus
  /-- `pool.fee` in protocol basis points (0 when absent). -/
  fee : ℕ
  /-- `pool.liquidity.usd || 0`. -/
  liqUSD : ℚ
  deriving DecidableEq, Repr

/-- The pair-token side of the pool's reserves, as computed at the top of the
rug-pull check: the side opposite the target token. -/
def pairTokenAmount (pool : ScorerPool) : ℚ :=
  if pool.isToken0 then pool.liqToken1 else pool.liqToken0

/-- The target-token side of the pool's reserves. -/
def targetTokenAmount (pool : ScorerPool) : ℚ :=
  if pool.isToken0 then pool.liqToken0 else pool.liqToken1

/-- Result record of `performSafetyChecks`. -/
structure SafetyResult where
  safetyScore : ℚ
  warnings : List String
  isUntradeable : Bool
  priceDeviation : ℚ
  sandwichRisk : String
  v3InRange : Bool
  deriving DecidableEq, Repr

/-- `PoolAnalyzer.performSafetyChecks(pool, tradeAmountUSD, liquidityUSD, bnbPrice)`.
The aggregate price of check 2 is `this.priceService.getAggregatePrice?.()`;
`PriceService` defines no such method, so the optional call is `undefined` and
the fallback `pool.price.inUSD` is used, making the deviation identically 0;
the branches are nevertheless transcribed.  Check 4.5 (rug pull) fires on
`pairTokenAmount < minPairReserve` alone — the source imposes no condition on
the target-token side here. -/
def performSafetyChecks (pool : ScorerPool) (tradeAmountUSD liquidityUSD : ℚ) :
    SafetyResult :=
  let v3NoLiquidity : Bool :=
    pool.typ == PoolType.V3 && pool.tickPresent && pool.sqrtPricePresent && (pool.liqRaw == 0)
  let score1 : ℚ := if v3NoLiquidity then 100 - 50 else 100
  let untradeable1 : Bool := v3NoLiquidity
  let v3InRange : Bool := !v3NoLiquidity
  let devActive : Bool := decide (0 < pool.priceInUSD)
  let priceDeviation : ℚ :=
    if 0 < pool.priceInUSD then |pool.priceInUSD - pool.priceInUSD| / pool.priceInUSD * 100
    else 0
  let score2 : ℚ :=
    if devActive && decide (10 < priceDeviation) then score1 - 40
    else if devActive && decide (5 < priceDeviation) then score1 - 20
    else if devActive && decide (2 < priceDeviation) then score1 - 5
    else score1
  let tradeToLiquidityRatio : ℚ := tradeAmountUSD / (if liquidityUSD = 0 then 1 else liquidityUSD)
  let sandwichRisk : String :=
    if 1 / 10 < tradeToLiquidityRatio then "CRITICAL"
    else if 1 / 20 < tradeToLiquidityRatio then "HIGH"
    else if 1 / 100 < tradeToLiquidityRatio then "MEDIUM"
    else "LOW"
  let score3 : ℚ :=
    if 1 / 10 < tradeToLiquidityRatio then score2 - 30
    else if 1 / 20 < tradeToLiquidityRatio then score2 - 15
    else score2
  let score4 : ℚ :=
    if liquidityUSD < 1000 then score3 - 30
    else if liquidityUSD < 10000 then score3 - 15
    else score3
  let rugDetected : Bool := decide (pairTokenAmount pool < minPairReserve pool.pairSymbol)
  let score5 : ℚ := if rugDetected then 0 else score4
  let untradeable2 : Bool := untradeable1 || rugDetected
  let score6 : ℚ := if pool.status != PoolStatus.ACTIVE then score5 - 20 else score5
  let isStablePair : Bool := stableSymbols.contains pool.pairSymbol
  let volatileLargeTrade : Bool :=
    decide (10000 < tradeAmountUSD) && !isStablePair && (pool.pairSymbol != "WBNB")
  let score7 : ℚ := if volatileLargeTrade then score6 - 10 else score6
  let score8 : ℚ := if 10000 < pool.fee then score7 - 15 else score7
  let warnings : List String :=
    (if v3NoLiquidity then ["V3_NO_LIQUIDITY_IN_RANGE"] else []) ++
    (if devActive && decide (10 < priceDeviation) then ["PRICE_MANIPULATION_RISK"]
     else if devActive && decide (5 < priceDeviation) then ["PRICE_DEVIATION_HIGH"]
     else if devActive && decide (2 < priceDeviation) then ["PRICE_DEVIATION_MODERATE"]
     else []) ++
    (if 1 / 10 < tradeToLiquidityRatio then ["SANDWICH_ATTACK_CRITICAL"]
     else if 1 / 20 < tradeToLiquidityRatio then ["SANDWICH_ATTACK_HIGH"]
     else []) ++
    (if liquidityUSD < 1000 then ["EXTREMELY_LOW_LIQUIDITY"]
     else if liquidityUSD < 10000 then ["LOW_LIQUIDITY"]
     else []) ++
    (if rugDetected then ["RUG_PULL_DETECTED"] else []) ++
    (if pool.status != PoolStatus.ACTIVE then ["POOL_INACTIVE"] else []) ++
    (if volatileLargeTrade then ["VOLATILE_PAIR_FOR_LARGE_TRADE"] else []) ++
    (if 10000 < pool.fee then ["UNUSUALLY_HIGH_FEE"] else [])
  { safetyScore := max 0 score8
    warnings := warnings
    isUntradeable := untradeable2
    priceDeviation := ((round (priceDeviation * 100) : ℤ) : ℚ) / 100
    sandwichRisk := sandwichRisk
    v3InRange := v3InRange }

/-- `PoolAnalyzer.estimateSlippage(pool, tradeAmountUSD, liquidityUSD, safetyChecks)`. -/
def estimateSlippage (typ : PoolType) (tradeAmountUSD liquidityUSD : ℚ)
    (v3InRange : Bool) : ℚ :=
  if liquidityUSD ≤ 0 then 100
  else if !v3InRange then 50
  else
    let tradeRatio := tradeAmountUSD / liquidityUSD
    match typ with
    | PoolType.V2 => tradeRatio * 50
    | PoolType.V3 => tradeRatio / 5 * 50

/-- The `costs` record returned by `analyzePoolForTrade`. -/
structure TradeCosts where
  feePercent : ℚ
  slippagePercent : ℚ
  totalCostPercent : ℚ
  feeCostUSD : ℚ
  slippageCostUSD : ℚ
  totalCostUSD : ℚ
  deriving DecidableEq, Repr

/-- Cost computation of `PoolAnalyzer.analyzePoolForTrade(pool, tradeAmountUSD, bnbPrice)`:
`feePercent = (pool.fee || 3000) / 1000000`, slippage from `estimateSlippage`
plus the price-deviation penalty, `totalCostPercent = feePercent·100 + slippage`. -/
def analyzePoolCosts (pool : ScorerPool) (tradeAmountUSD : ℚ) : TradeCosts :=
  let liquidityUSD := pool.liqUSD
  let feeEff : ℕ := if pool.fee = 0 then 3000 else pool.fee
  let feePercent : ℚ := (feeEff : ℚ) / 1000000
  let safetyChecks := performSafetyChecks pool tradeAmountUSD liquidityUSD
  let slippage0 := estimateSlippage pool.typ tradeAmountUSD liquidityUSD safetyChecks.v3InRange
  let slippagePercent :=
    if 5 < safetyChecks.priceDeviation then slippage0 + safetyChecks.priceDeviation
    else slippage0
  let totalCostPercent := feePercent * 100 + slippagePercent
  let feeCostUSD := tradeAmountUSD * feePercent
  let slippageCostUSD := tradeAmountUSD * (slippagePercent / 100)
  let totalCostUSD := feeCostUSD + slippageCostUSD
  { feePercent := feePercent * 100
    slippagePercent := slippagePercent
    totalCostPercent := totalCostPercent
    feeCostUSD := ((round (feeCostUSD * 10000) : ℤ) : ℚ) / 10000
    slippageCostUSD := ((round (slippageCostUSD * 10000) : ℤ) : ℚ) / 10000
    totalCostUSD := ((round (totalCostUSD * 10000) : ℤ) : ℚ) / 10000 }

/-- Per-pool price data collected by the first pass of
`PriceService.calculateAggregatePrice`: the pool's USD price
(`priceInUSD` from `calculatePoolPrices`) and its USD liquidity
(`pool.liquidity?.usd || 0`). -/
structure PoolPx where
  priceUSD : ℚ
  liqUSD : ℚ
  deriving DecidableEq, Repr

/-- Ascending insertion used by `sortAsc`. -/
def insertAsc (x : ℚ) : List ℚ → List ℚ
  | [] => [x]
  | y :: ys => if x ≤ y then x :: y :: ys else y :: insertAsc x ys

/-- Ascending sort, modelling `Array.prototype.sort((a, b) => a - b)`. -/
def sortAsc (l : List ℚ) : List ℚ := l.foldr insertAsc []

/-- `validUSDPrices` of `calculateAggregatePrice`: the positive USD prices,
sorted ascending. -/
def validUSDPrices (pools : List PoolPx) : List ℚ :=
  sortAsc ((pools.filter (fun p => decide (0 < p.priceUSD))).map (fun p => p.priceUSD))

/-- `medianUSD` of `calculateAggregatePrice`:
`validUSDPrices[Math.floor(length / 2)]`, or 0 when the list is empty. -/
def medianUSD (pools : List PoolPx) : ℚ :=
  let v := validUSDPrices pools
  if 0 < v.length then v.getD (v.length / 2) 0 else 0

/-- The pools the second pass of `calculateAggregatePrice` accumulates into the
weighted USD sums: positive price, positive liquidity, and price within
`[medianUSD × 0.1, medianUSD × 10]` (or the median is 0). -/
def includedForAvgUSD (pools : List PoolPx) : List PoolPx :=
  pools.filter (fun p =>
    decide (0 < p.priceUSD) && decide (0 < p.liqUSD) &&
    (decide (medianUSD pools = 0) ||
     (decide (medianUSD pools * (1 / 10) ≤ p.priceUSD) &&
      decide (p.priceUSD ≤ medianUSD pools * 10))))

/-- `totalWeightedUSD` accumulated by the second pass. -/
def totalWeightedUSD (pools : List PoolPx) : ℚ :=
  ((includedForAvgUSD pools).map (fun p => p.priceUSD * p.liqUSD)).sum

/-- `totalLiquidityUSD` accumulated by the second pass. -/
def totalLiquidityUSDAgg (pools : List PoolPx) : ℚ :=
  ((includedForAvgUSD pools).map (fun p => p.liqUSD)).sum

/-- `avgPriceUSD` returned by `calculateAggregatePrice`. -/
def avgPriceUSD (pools : List PoolPx) : ℚ :=
  if 0 < totalLiquidityUSDAgg pools then totalWeightedUSD pools / totalLiquidityUSDAgg pools
  else 0

/-- Stated from the claim's words, for comparison with the source's filter:
the pools whose USD price and USD liquidity are positive and whose USD price
lies within `[medianUSD × 0.1, medianUSD × 10]`. -/
def claimIncludedUSD (pools : List PoolPx) : List PoolPx :=
  pools.filter (fun p =>
    decide (0 < p.priceUSD) && decide (0 < p.liqUSD) &&
    decide (medianUSD pools * (1 / 10) ≤ p.priceUSD) &&
    decide (p.priceUSD ≤ medianUSD pools * 10))

/-- A pool as read by `MultiHopRouterService.estimateSwapOutput`. -/
structure RouterPool where
  /-- `pool.liquidity?.usd || 0`. -/
  liqUSD : ℚ
  /-- `pool.price?.usd || 0`. -/
  priceUSD : ℚ
  /-- `pool.price?.ratio` (0 when absent; 0 is falsy in the `|| 1` fallback). -/
  priceRatio : ℚ
  /-- `pool.fee` (0 when absent). -/
  fee : ℕ
  deriving DecidableEq, Repr

/-- The price impact computed by `estimateSwapOutput` before the cap:
`(swapValueUSD / liquidityUSD) × 100` with `swapValueUSD = amountIn × priceUSD / 1e18`,
or 10 when the pool's USD liquidity is not positive. -/
def rawPriceImpact (pool : RouterPool) (amountIn : ℚ) : ℚ :=
  let swapValueUSD := amountIn * pool.priceUSD / 10 ^ 18
  if 0 < pool.liqUSD then swapValueUSD / pool.liqUSD * 100 else 10

/-- `effectivePrice` of `estimateSwapOutput`: the pool ratio (`|| 1`) or its
inverse, by swap direction. -/
def effectivePrice (pool : RouterPool) (isTokenInFirst : Bool) : ℚ :=
  let r := if pool.priceRatio = 0 then 1 else pool.priceRatio
  if isTokenInFirst then r else 1 / r

/-- `feePercent` of `estimateSwapOutput`: `(pool.fee || 3000) / 1000000`. -/
def feeFrac (pool : RouterPool) : ℚ :=
  ((if pool.fee = 0 then 3000 else pool.fee : ℕ) : ℚ) / 1000000

/-- Return value of `estimateSwapOutput`. -/
structure SwapEstimate where
  amountOut : ℚ
  priceImpact : ℚ
  deriving DecidableEq, Repr

/-- `MultiHopRouterService.estimateSwapOutput(pool, amountIn, isTokenInFirst)`:
the output uses the uncapped price impact; only the returned `priceImpact`
field is capped at 50. -/
def estimateSwapOutput (pool : RouterPool) (amountIn : ℚ) (isTokenInFirst : Bool) :
    SwapEstimate :=
  let priceImpact := rawPriceImpact pool amountIn
  let amountOut :=
    amountIn * effectivePrice pool isTokenInFirst * (1 - feeFrac pool) * (1 - priceImpact / 100)
  { amountOut := amountOut, priceImpact := min priceImpact 50 }

/-- The mutable price state of `PriceService` relevant to the refresh clamps:
the wrapper-native (WBNB) USD price and the ecosystem (CAKE) USD price. -/
structure OracleState where
  bnbPriceUSD : ℚ
  cakePriceUSD : ℚ
  deriving DecidableEq, Repr

/-- The update section of `PriceService.fetchTokenPricesFromChain` (lines
175–189): a fetched candidate replaces the stored price only when it passes
the sanity band — `(100, 2000)` for the wrapper, `(0.1, 100)` for the
ecosystem token.  The source's `isFinite` guard holds for every `ℚ` value. -/
def applyPriceUpdate (st : OracleState) (bnbCandidate cakeCandidate : ℚ) : OracleState :=
  let st1 :=
    if bnbCandidate ≠ 0 ∧ 0 < bnbCandidate ∧ 100 < bnbCandidate ∧ bnbCandidate < 2000 then
      { st with bnbPriceUSD := bnbCandidate }
    else st
  if cakeCandidate ≠ 0 ∧ 0 < cakeCandidate ∧ 1 / 10 < cakeCandidate ∧ cakeCandidate < 100 then
    { st1 with cakePriceUSD := cakeCandidate }
  else st1

/-- The polling loop of `CacheService.acquireLock` at the granularity of its
10 ms sleeps: `sched n` says whether some other holder still owns the lock at
poll `n`; the elapsed time at poll `n` is `10 × n` ms and the timeout is
5000 ms.  Returns `true` iff the lock was acquired.  On timeout the stuck
entry is force-deleted and `false` is returned.  Fuel 502 covers every
reachable poll (the timeout fires at `n = 501` at the latest). -/
def acquireLoop (sched : ℕ → Bool) : ℕ → ℕ → Bool
  | _, 0 => false
  | n, fuel + 1 =>
    if sched n then
      (if 5000 < 10 * n then false else acquireLoop sched (n + 1) fuel)
    else true

/-- `CacheService.acquireLock(key)` with the default 5000 ms timeout. -/
def acquireLock (sched : ℕ → Bool) : Bool := acquireLoop sched 0 502

/-- Environment of one `getOrSet` call: the value found at the initial read,
the other holder's lock schedule, the value found at the re-read under the
lock, the value produced by `fetchFn` (`none` models `null`/`undefined`), and
the value found by the fresh read taken after a lock timeout. -/
structure CacheEnv (V : Type) where
  initial : Option V
  sched : ℕ → Bool
  recheck : Option V
  fetched : Option V
  fresh : Option V

/-- Lock-map operations performed by one `getOrSet` call. -/
inductive LockOp
  | set
  | del
  | delStuck
  deriving DecidableEq, Repr

/-- Observable outcome of one `getOrSet` call. -/
structure CacheOutcome (V : Type) where
  returned : Option V
  fetchCalled : Bool
  written : Option V
  lockOps : List LockOp

/-- `CacheService.getOrSet(cache, key, fetchFn, ttl)`: read, single-flight
lock (with forced removal of a stuck entry on timeout), re-read under the
lock, fetch, conditional write, release in `finally`. -/
def getOrSet {V : Type} (env : CacheEnv V) : CacheOutcome V :=
  match env.initial with
  | some v => { returned := some v, fetchCalled := false, written := none, lockOps := [] }
  | none =>
    if acquireLock env.sched then
      match env.recheck with
      | some v =>
          { returned := some v, fetchCalled := false, written := none
            lockOps := [LockOp.set, LockOp.del] }
      | none =>
          { returned := env.fetched, fetchCalled := true
            written := (match env.fetched with | some v => some v | none => none)
            lockOps := [LockOp.set, LockOp.del] }
    else
      { returned := env.fresh, fetchCalled := false, written := none
        lockOps := [LockOp.delStuck] }

/-- State of `PoolAnalyzer.analyzeToken` for one deduplication key
`(address, forceRefresh)`: the `analysis_<addr>` cache entry, the in-flight
promise for the key, and the number of upstream fetch sets started.  Results
and promises are abstracted as identifiers. -/
structure AnalyzerState where
  cacheEntry : Option ℕ
  inFlight : Option ℕ
  fetchCount : ℕ
  nextId : ℕ
  deriving DecidableEq, Repr

/-- What the synchronous prefix of `analyzeToken` does for the caller. -/
inductive EntryOutcome
  | cachedHit (result : ℕ)
  | deduplicated (promiseId : ℕ) (dedupFlag : Bool)
  | started (promiseId : ℕ)
  deriving DecidableEq, Repr

/-- The synchronous prefix of `analyzeToken(tokenAddress, forceRefresh)` up to
the first suspension: cache check (or cache invalidation when forced), then
the in-flight map check, then creation and registration of a new analysis
promise.  A `deduplicated` outcome awaits the named promise and returns its
result with `meta.deduplicated = true`. -/
def analyzeEntry (s : AnalyzerState) (forceRefresh : Bool) :
    EntryOutcome × AnalyzerState :=
  match forceRefresh, s.cacheEntry with
  | false, some r => (EntryOutcome.cachedHit r, s)
  | fr, _ =>
    let s1 := if fr then { s with cacheEntry := none } else s
    match s1.inFlight with
    | some p => (EntryOutcome.deduplicated p true, s1)
    | none =>
        (EntryOutcome.started s1.nextId,
         { s1 with inFlight := some s1.nextId, fetchCount := s1.fetchCount + 1,
                   nextId := s1.nextId + 1 })

/-- Settlement of the in-flight analysis: `_performAnalysis` caches the result
immediately before resolving, and the `finally` of `analyzeToken` deletes the
in-flight entry when the promise settles; no other caller can run between the
two (they are adjacent microtasks). -/
def settleInFlight (s : AnalyzerState) (result : ℕ) : AnalyzerState :=
  { s with cacheEntry := some result, inFlight := none }

/-- Invariant of the analyzer state: while an analysis is in flight for the
key, the analysis cache has no entry for it (the entry is written only at
settlement). -/
def AnalyzerInv (s : AnalyzerState) : Prop :=
  s.inFlight.isSome → s.cacheEntry = none

/-- A WBNB-paired V2 pool whose pair-token side and target-token side are both
zero, as fed to the scorer. -/
def rugZeroTargetPool : ScorerPool :=
  { typ := PoolType.V2
    tickPresent := false
    sqrtPricePresent := false
    liqRaw := 0
    priceInUSD := 0
    isToken0 := true
    liqToken0 := 0
    liqToken1 := 0
    pairSymbol := "WBNB"
    status := PoolStatus.EMPTY
    fee := 2500
    liqUSD := 0 }

/-- A WBNB-paired V2 pool holding target tokens but a drained pair side. -/
def rugWitnessPool : ScorerPool :=
  { typ := PoolType.V2
    tickPresent := false
    sqrtPricePresent := false
    liqRaw := 10
    priceInUSD := 2
    isToken0 := true
    liqToken0 := 5
    liqToken1 := 0
    pairSymbol := "WBNB"
    status := PoolStatus.LOW_LIQUIDITY
    fee := 2500
    liqUSD := 10 }

/-- A concrete single-flight environment: empty cache, free lock, fetch
returning the value 7. -/
def cacheWitnessEnv : CacheEnv ℕ :=
  { initial := none
    sched := fun _ => false
    recheck := none
    fetched := some 7
    fresh := none }

/-- A concrete analyzer state with an analysis in flight (promise id 5, one
fetch set already started) and an empty analysis cache. -/
def dedupWitnessState : AnalyzerState :=
  { cacheEntry := none
    inFlight := some 5
    fetchCount := 1
    nextId := 6 }

/-! ## Helper lemmas -/

theorem mem_insertAsc {x a : ℚ} {l : List ℚ} : a ∈ insertAsc x l ↔ a = x ∨ a ∈ l := by
  induction l with
  | nil => simp [insertAsc]
  | cons y ys ih =>
      unfold insertAsc
      split
      · simp [List.mem_cons]
      · simp only [List.mem_cons, ih]
        tauto

theorem mem_sortAsc {a : ℚ} {l : List ℚ} : a ∈ sortAsc l ↔ a ∈ l := by
  induction l with
  | nil => simp [sortAsc]
  | cons y ys ih =>
      show a ∈ insertAsc y (sortAsc ys) ↔ _
      rw [mem_insertAsc, ih]
      simp [List.mem_cons]

theorem getD_mem_of_lt : ∀ (l : List ℚ) (n : ℕ), n < l.length → l.getD n 0 ∈ l
  | [], n, h => by simp at h
  | x :: _, 0, _ => by simp
  | _ :: xs, n + 1, h => by
      simp only [List.getD_cons_succ, List.mem_cons]
      exact Or.inr (getD_mem_of_lt xs n (by simpa using h))

theorem validUSDPrices_pos {pools : List PoolPx} {a : ℚ}
    (h : a ∈ validUSDPrices pools) : 0 < a := by
  unfold validUSDPrices at h
  rw [mem_sortAsc] at h
  simp only [List.mem_map, List.mem_filter] at h
  obtain ⟨p, ⟨_, hp⟩, rfl⟩ := h
  exact of_decide_eq_true hp

theorem medianUSD_pos {pools : List PoolPx} (h : validUSDPrices pools ≠ []) :
    0 < medianUSD pools := by
  have hlen : 0 < (validUSDPrices pools).length := List.length_pos.mpr h
  have hidx : (validUSDPrices pools).length / 2 < (validUSDPrices pools).length :=
    Nat.div_lt_self hlen (by norm_num)
  have hmem := getD_mem_of_lt (validUSDPrices pools) _ hidx
  unfold medianUSD
  rw [if_pos hlen]
  exact validUSDPrices_pos hmem

theorem validUSDPrices_ne_nil {pools : List PoolPx} {p : PoolPx}
    (hp : p ∈ pools) (hpos : 0 < p.priceUSD) : validUSDPrices pools ≠ [] := by
  intro hnil
  have : p.priceUSD ∈ validUSDPrices pools := by
    unfold validUSDPrices
    rw [mem_sortAsc]
    exact List.mem_map_of_mem _ (List.mem_filter.mpr ⟨hp, decide_eq_true hpos⟩)
  rw [hnil] at this
  simp at this

theorem includedForAvgUSD_eq_claim (pools : List PoolPx) :
    includedForAvgUSD pools = claimIncludedUSD pools := by
  unfold includedForAvgUSD claimIncludedUSD
  apply List.filter_congr
  intro p hp
  by_cases hpos : 0 < p.priceUSD
  · have hm : 0 < medianUSD pools := medianUSD_pos (validUSDPrices_ne_nil hp hpos)
    have hm0 : ¬ medianUSD pools = 0 := ne_of_gt hm
    rw [Bool.eq_iff_iff]
    simp only [Bool.and_eq_true, Bool.or_eq_true, decide_eq_true_eq, hm0]
    tauto
  · rw [Bool.eq_iff_iff]
    simp [hpos]

theorem weighted_sum_bounds (lo hi : ℚ) :
    ∀ l : List PoolPx, (∀ p ∈ l, 0 < p.liqUSD ∧ lo ≤ p.priceUSD ∧ p.priceUSD ≤ hi) →
      lo * (l.map (fun p => p.liqUSD)).sum ≤ (l.map (fun p => p.priceUSD * p.liqUSD)).sum ∧
      (l.map (fun p => p.priceUSD * p.liqUSD)).sum ≤ hi * (l.map (fun p => p.liqUSD)).sum
  | [], _ => by simp
  | p :: l, h => by
      have hp := h p (List.mem_cons_self p l)
      have hrest := weighted_sum_bounds lo hi l (fun q hq => h q (List.mem_cons_of_mem p hq))
      simp only [List.map_cons, List.sum_cons]
      constructor
      · have h1 : lo * p.liqUSD ≤ p.priceUSD * p.liqUSD :=
          mul_le_mul_of_nonneg_right hp.2.1 (le_of_lt hp.1)
        nlinarith [hrest.1]
      · have h2 : p.priceUSD * p.liqUSD ≤ hi * p.liqUSD :=
          mul_le_mul_of_nonneg_right hp.2.2 (le_of_lt hp.1)
        nlinarith [hrest.2]

theorem included_member_bounds {pools : List PoolPx} {p : PoolPx}
    (h : p ∈ includedForAvgUSD pools) :
    0 < p.liqUSD ∧ medianUSD pools * (1 / 10) ≤ p.priceUSD ∧
      p.priceUSD ≤ medianUSD pools * 10 := by
  rw [includedForAvgUSD_eq_claim] at h
  unfold claimIncludedUSD at h
  simp only [List.mem_filter, Bool.and_eq_true, decide_eq_true_eq] at h
  exact ⟨h.2.1.1.2, h.2.1.2, h.2.2⟩

/-! ## Claim theorems -/

/-- C1: for every pool list passed to `calculateAggregatePrice`, the returned
`avgPriceUSD` is the liquidity-weighted mean of the per-pool USD prices over
exactly those pools with positive USD price and positive USD liquidity whose
USD price lies within `[medianUSD × 0.1, medianUSD × 10]`; consequently it
lies in that closed interval or is 0. -/
theorem C1_avgPriceUSD_weighted_mean (pools : List PoolPx) :
    includedForAvgUSD pools = claimIncludedUSD pools ∧
    avgPriceUSD pools =
      (if 0 < ((claimIncludedUSD pools).map (fun p => p.liqUSD)).sum
       then ((claimIncludedUSD pools).map (fun p => p.priceUSD * p.liqUSD)).sum /
            ((claimIncludedUSD pools).map (fun p => p.liqUSD)).sum
       else 0) ∧
    (avgPriceUSD pools = 0 ∨
      (medianUSD pools * (1 / 10) ≤ avgPriceUSD pools ∧
       avgPriceUSD pools ≤ medianUSD pools * 10)) := by
  refine ⟨includedForAvgUSD_eq_claim pools, ?_, ?_⟩
  · unfold avgPriceUSD totalWeightedUSD totalLiquidityUSDAgg
    rw [includedForAvgUSD_eq_claim]
  · by_cases hpos : 0 < totalLiquidityUSDAgg pools
    · right
      have hb := weighted_sum_bounds (medianUSD pools * (1 / 10)) (medianUSD pools * 10)
        (includedForAvgUSD pools) (fun p hp => included_member_bounds hp)
      have havg : avgPriceUSD pools = totalWeightedUSD pools / totalLiquidityUSDAgg pools := by
        unfold avgPriceUSD
        rw [if_pos hpos]
      rw [havg]
      constructor
      · rw [le_div_iff hpos]
        exact hb.1
      · rw [div_le_iff hpos]
        exact hb.2
    · left
      unfold avgPriceUSD
      rw [if_neg hpos]

/-- C10 (code bug): in `calculatePoolValue`, with token0 priced at $1, token1
unpriced, reserves `(1, 0)`, the guard `reserve0 > 0` passes and the code
divides by `reserve1 = 0`: the derived token1 price is `Infinity`,
`token1Value = 0 × Infinity = NaN`, and the returned `totalValueUSD` is `NaN`
— not a finite number, contradicting the claim that the divisor is positive. -/
theorem C10_calculatePoolValue_nan :
    (calculatePoolValue 1 0 1 0 600).1 = JSNum.nan ∧
    JSNum.isFinite (calculatePoolValue 1 0 1 0 600).1 = false := by
  decide

/-- C4 counterexample: a V3 pool with zero liquidity (tick 0) is enriched with
status `RUGGED`, not `EMPTY` as the claim states. -/
theorem C4_counterexample_v3_zero_liquidity :
    (enrichV3 0 0 (JSNum.fin 0)).status = PoolStatus.RUGGED ∧
    (enrichV3 0 0 (JSNum.fin 0)).status ≠ PoolStatus.EMPTY := by
  decide

/-- C4 (amended): a V2 pool with both reserves zero gets `priceRatio = 0` and
status `EMPTY`; a V3 pool with zero liquidity gets status `RUGGED` (the rugged
check precedes the `EMPTY` branch and returns immediately), with its
liquidity fields zeroed. -/
theorem C4_zero_state_status :
    (∀ (dec0 dec1 : ℕ) (p0 p1 bnb : ℚ),
      (enrichV2 0 0 dec0 dec1 p0 p1 bnb).status = PoolStatus.EMPTY) ∧
    (∀ (dec0 dec1 : ℕ) (isToken0 : Bool),
      formatPriceRatioV2 0 0 dec0 dec1 isToken0 = 0) ∧
    (∀ (tick : ℤ) (tv : JSNum),
      (enrichV3 tick 0 tv).status = PoolStatus.RUGGED ∧ (enrichV3 tick 0 tv).liqRaw = 0) := by
  refine ⟨?_, ?_, ?_⟩
  · intro dec0 dec1 p0 p1 bnb
    unfold enrichV2 calculatePoolValue
    simp only [Nat.cast_zero, zero_div, zero_mul, mul_zero, zero_add, add_zero, lt_irrefl,
      if_false]
    split_ifs <;>
      simp_all [JSNum.mul, JSNum.add, JSNum.geC, JSNum.leC] <;>
      linarith
  · intro dec0 dec1 isToken0
    unfold formatPriceRatioV2
    simp
  · intro tick tv
    unfold enrichV3
    simp

/-- C3 (code bug): a V3 pool fetched with zero liquidity is enriched with
status `RUGGED` and `liquidity.raw = '0'`, therefore fails the `hasLiquidity`
filter of `discoverAllPools` and is dropped before warnings generation, so the
analysis emits no `V3_RUGGED_POOLS` warning — although the warning generator,
fed the same pool directly, would emit the CRITICAL item. -/
theorem C3_v3_rugged_warning_unreachable :
    (enrichV3 0 0 (JSNum.fin 0)).status = PoolStatus.RUGGED ∧
    hasLiquidity (enrichV3 0 0 (JSNum.fin 0)) = false ∧
    discoverFilter [enrichV3 0 0 (JSNum.fin 0)] = [] ∧
    v3RuggedWarningItems ((discoverFilter [enrichV3 0 0 (JSNum.fin 0)]).map formatPool) = [] ∧
    v3RuggedWarningItems [formatPool (enrichV3 0 0 (JSNum.fin 0))] =
      [("V3_RUGGED_POOLS", "CRITICAL")] := by
  decide

theorem mem_ite_list {α : Type} (a : α) (c : Prop) [Decidable c] (l1 l2 : List α) :
    a ∈ (if c then l1 else l2) ↔ (c ∧ a ∈ l1) ∨ (¬c ∧ a ∈ l2) := by
  split <;> simp [*]

/-- C2 (amended): `performSafetyChecks` raises `RUG_PULL_DETECTED` exactly
when the pair-token reserve amount is below the per-symbol minimum
(wrapper-native 0.001, USD stable 10, ecosystem 5, other 10) — with no
condition on the target-token side — and in that case the safety score is 0
and the pool is untradeable. -/
theorem C2_rug_pull_condition (pool : ScorerPool) (tradeAmountUSD liquidityUSD : ℚ) :
    ("RUG_PULL_DETECTED" ∈ (performSafetyChecks pool tradeAmountUSD liquidityUSD).warnings ↔
      pairTokenAmount pool < minPairReserve pool.pairSymbol) ∧
    (pairTokenAmount pool < minPairReserve pool.pairSymbol →
      (performSafetyChecks pool tradeAmountUSD liquidityUSD).safetyScore = 0 ∧
      (performSafetyChecks pool tradeAmountUSD liquidityUSD).isUntradeable = true) := by
  constructor
  · unfold performSafetyChecks
    dsimp only
    simp only [List.mem_append, mem_ite_list, List.mem_singleton, List.not_mem_nil]
    simp
  · intro hrug
    have hdec : decide (pairTokenAmount pool < minPairReserve pool.pairSymbol) = true :=
      decide_eq_true hrug
    unfold performSafetyChecks
    dsimp only
    simp only [hdec, if_true, Bool.or_true]
    refine ⟨?_, trivial⟩
    split_ifs <;> simp <;> norm_num

/-- C2 counterexample to the original claim: a pool whose target-token side is
zero and whose pair-token side is below the WBNB minimum is still marked
`RUG_PULL_DETECTED` (safety score 0, untradeable) — the source imposes no
`target > 0` condition in the scorer. -/
theorem C2_counterexample_zero_target :
    targetTokenAmount rugZeroTargetPool = 0 ∧
    "RUG_PULL_DETECTED" ∈ (performSafetyChecks rugZeroTargetPool 1000 0).warnings ∧
    (performSafetyChecks rugZeroTargetPool 1000 0).safetyScore = 0 ∧
    (performSafetyChecks rugZeroTargetPool 1000 0).isUntradeable = true := by
  refine ⟨rfl, ?_, ?_, ?_⟩ <;>
    norm_num [performSafetyChecks, rugZeroTargetPool, pairTokenAmount, minPairReserve,
      stableSymbols] <;>
    split_ifs <;> norm_num

/-- C2 witness: the rug-pull condition theorem applied to a concrete drained
WBNB pool. -/
theorem C2_rug_pull_condition_witness :
    pairTokenAmount rugWitnessPool < minPairReserve rugWitnessPool.pairSymbol ∧
    (performSafetyChecks rugWitnessPool 1000 10).safetyScore = 0 ∧
    (performSafetyChecks rugWitnessPool 1000 10).isUntradeable = true ∧
    "RUG_PULL_DETECTED" ∈ (performSafetyChecks rugWitnessPool 1000 10).warnings := by
  have h := C2_rug_pull_condition rugWitnessPool 1000 10
  have hlt : pairTokenAmount rugWitnessPool < minPairReserve rugWitnessPool.pairSymbol := by
    norm_num [pairTokenAmount, rugWitnessPool, minPairReserve]
  exact ⟨hlt, (h.2 hlt).1, (h.2 hlt).2, h.1.mpr hlt⟩

/-- C5: for every scored pool, the reported costs satisfy
`totalCostPercent = feePercent + slippagePercent` exactly (hence within 1e-6),
with `feePercent = (pool.fee || 3000) / 10000`, so fee 3000 yields 0.3%, and
the reported slippage being the pool's estimated slippage for the trade. -/
theorem C5_total_cost_decomposition (pool : ScorerPool) (tradeAmountUSD : ℚ) :
    (analyzePoolCosts pool tradeAmountUSD).totalCostPercent =
      (analyzePoolCosts pool tradeAmountUSD).feePercent +
      (analyzePoolCosts pool tradeAmountUSD).slippagePercent ∧
    (analyzePoolCosts pool tradeAmountUSD).feePercent =
      (((if pool.fee = 0 then 3000 else pool.fee : ℕ) : ℚ)) / 10000 ∧
    (pool.fee = 3000 →
      (analyzePoolCosts pool tradeAmountUSD).feePercent = 3 / 10) := by
  refine ⟨rfl, ?_, ?_⟩
  · show ((if pool.fee = 0 then 3000 else pool.fee : ℕ) : ℚ) / 1000000 * 100 = _
    ring
  · intro h
    show ((if pool.fee = 0 then 3000 else pool.fee : ℕ) : ℚ) / 1000000 * 100 = 3 / 10
    rw [h]
    norm_num

/-- C5 witness: a pool with fee tier 3000 reports a 0.3% fee. -/
theorem C5_total_cost_decomposition_witness :
    ({ rugWitnessPool with fee := 3000 } : ScorerPool).fee = 3000 ∧
    (analyzePoolCosts { rugWitnessPool with fee := 3000 } 1000).feePercent = 3 / 10 :=
  ⟨rfl, (C5_total_cost_decomposition { rugWitnessPool with fee := 3000 } 1000).2.2 rfl⟩

/-- C6 counterexample: with a $1-liquidity pool and a swap worth $2, the raw
price impact is 200% and the estimated output is negative — the 50% cap is
applied only to the returned `priceImpact` field, not to the output. -/
theorem C6_counterexample_negative_output :
    (estimateSwapOutput { liqUSD := 1, priceUSD := 2 * 10 ^ 18, priceRatio := 1, fee := 3000 }
      1 true).amountOut < 0 ∧
    (estimateSwapOutput { liqUSD := 1, priceUSD := 2 * 10 ^ 18, priceRatio := 1, fee := 3000 }
      1 true).priceImpact = 50 := by
  constructor <;>
    norm_num [estimateSwapOutput, rawPriceImpact, effectivePrice, feeFrac]

/-- C6 (amended): each route-leg output equals
`amountIn × effectivePrice × (1 − feeFrac) × (1 − rawImpactFrac)` where the
impact fraction is the uncapped `swapValueUSD / liquidityUSD` (0.1 when the
pool has no positive USD liquidity); only the returned `priceImpact` field is
capped at 50%, and the output is non-negative only when the raw impact is at
most 100%. -/
theorem C6_output_uses_uncapped_impact (pool : RouterPool) (amountIn : ℚ) (dir : Bool) :
    (estimateSwapOutput pool amountIn dir).amountOut =
      amountIn * effectivePrice pool dir * (1 - feeFrac pool) *
        (1 - rawPriceImpact pool amountIn / 100) ∧
    (estimateSwapOutput pool amountIn dir).priceImpact =
      min (rawPriceImpact pool amountIn) 50 ∧
    (0 ≤ amountIn → 0 ≤ effectivePrice pool dir → feeFrac pool ≤ 1 →
      rawPriceImpact pool amountIn ≤ 100 →
      0 ≤ (estimateSwapOutput pool amountIn dir).amountOut) := by
  refine ⟨rfl, rfl, ?_⟩
  intro h1 h2 h3 h4
  have hfee : (0 : ℚ) ≤ 1 - feeFrac pool := by linarith
  have himp : (0 : ℚ) ≤ 1 - rawPriceImpact pool amountIn / 100 := by linarith
  exact mul_nonneg (mul_nonneg (mul_nonneg h1 h2) hfee) himp

/-- C6 witness: a $100-liquidity pool with a $1 swap has 1% raw impact and a
non-negative estimated output. -/
theorem C6_output_uses_uncapped_impact_witness :
    0 ≤ (estimateSwapOutput { liqUSD := 100, priceUSD := 10 ^ 18, priceRatio := 2, fee := 3000 }
      1 true).amountOut := by
  have h := C6_output_uses_uncapped_impact
    { liqUSD := 100, priceUSD := 10 ^ 18, priceRatio := 2, fee := 3000 } 1 true
  exact h.2.2 (by norm_num) (by norm_num [effectivePrice]) (by norm_num [feeFrac])
    (by norm_num [rawPriceImpact])

/-- C7: a Price Oracle refresh replaces the stored wrapper price only by a
fetched value strictly inside (100, 2000) and the stored ecosystem price only
by a fetched value strictly inside (0.1, 100); a candidate outside its band
leaves the cached price unchanged. -/
theorem C7_price_clamp (st : OracleState) (b c : ℚ) :
    ((100 < b ∧ b < 2000) → (applyPriceUpdate st b c).bnbPriceUSD = b) ∧
    (¬(100 < b ∧ b < 2000) → (applyPriceUpdate st b c).bnbPriceUSD = st.bnbPriceUSD) ∧
    ((1 / 10 < c ∧ c < 100) → (applyPriceUpdate st b c).cakePriceUSD = c) ∧
    (¬(1 / 10 < c ∧ c < 100) → (applyPriceUpdate st b c).cakePriceUSD = st.cakePriceUSD) := by
  have hbnb : (applyPriceUpdate st b c).bnbPriceUSD =
      if b ≠ 0 ∧ 0 < b ∧ 100 < b ∧ b < 2000 then b else st.bnbPriceUSD := by
    unfold applyPriceUpdate
    split_ifs <;> rfl
  have hcake : (applyPriceUpdate st b c).cakePriceUSD =
      if c ≠ 0 ∧ 0 < c ∧ 1 / 10 < c ∧ c < 100 then c else st.cakePriceUSD := by
    unfold applyPriceUpdate
    split_ifs <;> rfl
  refine ⟨?_, ?_, ?_, ?_⟩
  · rintro ⟨hb1, hb2⟩
    rw [hbnb, if_pos ⟨(show (0 : ℚ) < b by linarith).ne', by linarith, hb1, hb2⟩]
  · intro hnb
    rw [hbnb, if_neg (fun hg => hnb ⟨hg.2.2.1, hg.2.2.2⟩)]
  · rintro ⟨hc1, hc2⟩
    rw [hcake, if_pos ⟨(show (0 : ℚ) < c by linarith).ne', by linarith, hc1, hc2⟩]
  · intro hnc
    rw [hcake, if_neg (fun hg => hnc ⟨hg.2.2.1, hg.2.2.2⟩)]

/-- C7 witness: a fetched wrapper price of 650 is accepted while a fetched
ecosystem price of 1000 is discarded in favour of the cached 2.5. -/
theorem C7_price_clamp_witness :
    (applyPriceUpdate ⟨600, 5 / 2⟩ 650 1000).bnbPriceUSD = 650 ∧
    (applyPriceUpdate ⟨600, 5 / 2⟩ 650 1000).cakePriceUSD = 5 / 2 := by
  have h := C7_price_clamp ⟨600, 5 / 2⟩ 650 1000
  exact ⟨h.1 (by norm_num), h.2.2.2 (by norm_num)⟩

theorem acquireLoop_timeout (sched : ℕ → Bool) :
    ∀ (fuel n : ℕ), n + fuel ≤ 502 → (∀ m, m ≤ 501 → sched m = true) →
      acquireLoop sched n fuel = false
  | 0, _, _, _ => rfl
  | fuel + 1, n, hle, hall => by
      have hn : n ≤ 501 := by omega
      unfold acquireLoop
      rw [hall n hn]
      by_cases h10 : 5000 < 10 * n
      · simp [h10]
      · simp only [if_true, if_neg h10]
        exact acquireLoop_timeout sched fuel (n + 1) (by omega) hall

/-- C8: the single-flight fill returns a present value without fetching; on a
lock timeout (the other holder keeps the lock through every poll of the 5 s
window) the stuck entry is force-removed and the fresh read is returned
without fetching; after acquisition the key is re-read before fetch, the
fetched value is written only when it is not null/undefined, and every lock
the call sets is released. -/
theorem C8_getOrSet_single_flight {V : Type} (env : CacheEnv V) :
    (∀ v, env.initial = some v →
      (getOrSet env).returned = some v ∧ (getOrSet env).fetchCalled = false ∧
      (getOrSet env).lockOps = []) ∧
    (env.initial = none → (∀ m, m ≤ 501 → env.sched m = true) →
      (getOrSet env).lockOps = [LockOp.delStuck] ∧ (getOrSet env).fetchCalled = false ∧
      (getOrSet env).returned = env.fresh) ∧
    (env.initial = none → acquireLock env.sched = true →
      (∀ v, env.recheck = some v →
        (getOrSet env).returned = some v ∧ (getOrSet env).fetchCalled = false ∧
        (getOrSet env).lockOps = [LockOp.set, LockOp.del]) ∧
      (env.recheck = none →
        (getOrSet env).fetchCalled = true ∧ (getOrSet env).returned = env.fetched ∧
        (getOrSet env).written = env.fetched ∧
        (getOrSet env).lockOps = [LockOp.set, LockOp.del])) ∧
    (LockOp.set ∈ (getOrSet env).lockOps → LockOp.del ∈ (getOrSet env).lockOps) := by
  refine ⟨?_, ?_, ?_, ?_⟩
  · intro v hv
    simp [getOrSet, hv]
  · intro hinit hall
    have hto : acquireLock env.sched = false :=
      acquireLoop_timeout env.sched 502 0 (by omega) hall
    simp [getOrSet, hinit, hto]
  · intro hinit hacq
    constructor
    · intro v hv
      simp [getOrSet, hinit, hacq, hv]
    · intro hv
      cases hf : env.fetched <;> simp [getOrSet, hinit, hacq, hv, hf]
  · cases hi : env.initial
    · cases hacq : acquireLock env.sched
      · simp [getOrSet, hi, hacq]
      · cases hr : env.recheck <;> simp [getOrSet, hi, hacq, hr]
    · simp [getOrSet, hi]

/-- C8 witness: the single-flight theorem applied to an empty cache with a
free lock and a fetch returning 7. -/
theorem C8_getOrSet_single_flight_witness :
    (getOrSet cacheWitnessEnv).fetchCalled = true ∧
    (getOrSet cacheWitnessEnv).returned = some 7 ∧
    (getOrSet cacheWitnessEnv).written = some 7 := by
  have h := (C8_getOrSet_single_flight cacheWitnessEnv).2.2.1 rfl rfl
  have h2 := h.2 rfl
  exact ⟨h2.1, h2.2.1, h2.2.2.1⟩

theorem analyzeEntry_preserves_inv (s : AnalyzerState) (fr : Bool)
    (h : AnalyzerInv s) : AnalyzerInv (analyzeEntry s fr).2 := by
  cases fr <;> cases hce : s.cacheEntry <;>
    cases hif : s.inFlight <;>
    simp_all [analyzeEntry, AnalyzerInv]

theorem settleInFlight_preserves_inv (s : AnalyzerState) (r : ℕ) :
    AnalyzerInv (settleInFlight s r) := by
  intro h
  simp [settleInFlight] at h

/-- C9: a second `analyzeToken` invocation for the same `(address,
forceRefresh)` key while a first analysis is in flight takes the
deduplication branch: it awaits the same in-flight promise, returns that
result with `meta.deduplicated = true`, starts no additional upstream fetch
set, and the in-flight entry is removed when the promise settles. -/
theorem C9_deduplication (s : AnalyzerState) (fr : Bool) (p : ℕ)
    (hInv : AnalyzerInv s) (hIn : s.inFlight = some p) :
    (analyzeEntry s fr).1 = EntryOutcome.deduplicated p true ∧
    (analyzeEntry s fr).2.fetchCount = s.fetchCount ∧
    (analyzeEntry s fr).2.inFlight = some p ∧
    (∀ r, (settleInFlight (analyzeEntry s fr).2 r).inFlight = none) := by
  cases fr
  · have hc : s.cacheEntry = none := hInv (by rw [hIn]; rfl)
    simp [analyzeEntry, hc, hIn, settleInFlight]
  · cases hce : s.cacheEntry <;>
      simp [analyzeEntry, hce, hIn, settleInFlight]

/-- C9 witness: the deduplication theorem applied to a state with promise 5 in
flight and one fetch set already issued. -/
theorem C9_deduplication_witness :
    (analyzeEntry dedupWitnessState false).1 = EntryOutcome.deduplicated 5 true ∧
    (analyzeEntry dedupWitnessState false).2.fetchCount = 1 := by
  have h := C9_deduplication dedupWitnessState false 5 (fun _ => rfl) rfl
  exact ⟨h.1, h.2.1⟩
